import Mathlib

/-!
Shallow embedding of `retry_failed_issues.py`, a sequential CSV-to-Zephyr
migration script.  External effects (HTTP responses, the `datetime` library,
the prefetched user directory) are captured by an `Env` record of response
functions; each embedded operation returns its result together with the list
of API calls it performed, so that resource usage ("no creation call was
made", "the rate-limit delay was performed") is provable from the trace.
-/

namespace Zephyr

/-- Python truthiness of an `Optional[str]`: `None` and `""` are falsy. -/
def optTruthy : Option String → Bool
  | none => false
  | some s => s != ""

/-- Python truthiness of an `Optional[int]`: `None` and `0` are falsy. -/
def optIntTruthy : Option Int → Bool
  | none => false
  | some n => n != 0

/-- Python `x or y` for optional string values (falsy `x` selects `y`). -/
def pyOr (a b : Option String) : Option String :=
  if optTruthy a then a else b

/-- Python `str(x)` on an optional value: `str(None)` is the string `"None"`. -/
def pyStrOpt : Option String → String
  | some s => s
  | none => "None"

/-- Python `s.strip()`: drop leading and trailing whitespace. -/
def pyStrip (s : String) : String :=
  String.mk (((s.data.dropWhile Char.isWhitespace).reverse.dropWhile Char.isWhitespace).reverse)

/-- Python `s.lower()` (ASCII, as the source's inputs are). -/
def pyLower (s : String) : String :=
  String.mk (s.data.map Char.toLower)

/-- Python `s.upper()` (ASCII, as the source's inputs are). -/
def pyUpper (s : String) : String :=
  String.mk (s.data.map Char.toUpper)

/-- Association list standing for a Python `dict` used as a cache. -/
abbrev AList (κ ν : Type) := List (κ × ν)

/-- `dict` membership / item lookup (`cache[key]` guarded by `key in cache`). -/
def alookup {κ ν : Type} [DecidableEq κ] : AList κ ν → κ → Option ν
  | [], _ => none
  | (k, v) :: rest, key => if k = key then some v else alookup rest key

/-- `dict` assignment `cache[key] = v` (new binding shadows any old one). -/
def ainsert {κ ν : Type} (l : AList κ ν) (k : κ) (v : ν) : AList κ ν :=
  (k, v) :: l

/-- `" ".join((s or "").strip().split())` from the source's helpers. -/
def normalize_whitespace (s : String) : String :=
  " ".intercalate ((s.split Char.isWhitespace).filter (fun w => w ≠ ""))

/-- `normalize_user_name`: drop `(Inactive)` markers, collapse whitespace. -/
def normalize_user_name (name : String) : String :=
  if name = "" then ""
  else normalize_whitespace ((name.replace "(Inactive)" "").replace "(inactive)" "")

/-! ### HTTP retry clients

`jira_request` / `zephyr_request` loop over `range(max_retries)` attempts of
`requests.request`.  An attempt's outcome is either a returned value, a
timeout exception, a connection-error exception, or any other exception.
The loop is embedded as structural recursion over the list of the outcomes
the network would produce for attempts `0 .. max_retries - 1`; the result is
the returned optional response together with the backoff sleeps performed
(the source sleeps `(attempt + 1) * 2` seconds before re-attempting, and
only while `attempt < max_retries - 1`). -/

/-- Outcome of one `requests.request` attempt. -/
inductive AttemptOutcome (α : Type) where
  | success (r : α)
  | timeout
  | connError
  | otherError
deriving DecidableEq

/-- The attempt loop of `jira_request`: only `requests.exceptions.Timeout`
is retried; every other exception returns `None` at once. -/
def jiraRetry {α : Type} (attempt : Nat) : List (AttemptOutcome α) → Option α × List Nat
  | [] => (none, [])
  | .success r :: _ => (some r, [])
  | .timeout :: rest =>
    if rest.isEmpty then (none, [])
    else
      let next := jiraRetry (attempt + 1) rest
      (next.1, (attempt + 1) * 2 :: next.2)
  | .connError :: _ => (none, [])
  | .otherError :: _ => (none, [])

/-- `jira_request` with its attempt outcomes made explicit. -/
def jira_request {α : Type} (outcomes : List (AttemptOutcome α)) : Option α × List Nat :=
  jiraRetry 0 outcomes

/-- The attempt loop of `zephyr_request`: both `Timeout` and
`ConnectionError` are retried; every other exception returns `None`. -/
def zephyrRetry {α : Type} (attempt : Nat) : List (AttemptOutcome α) → Option α × List Nat
  | [] => (none, [])
  | .success r :: _ => (some r, [])
  | .timeout :: rest =>
    if rest.isEmpty then (none, [])
    else
      let next := zephyrRetry (attempt + 1) rest
      (next.1, (attempt + 1) * 2 :: next.2)
  | .connError :: rest =>
    if rest.isEmpty then (none, [])
    else
      let next := zephyrRetry (attempt + 1) rest
      (next.1, (attempt + 1) * 2 :: next.2)
  | .otherError :: _ => (none, [])

/-- `zephyr_request` with its attempt outcomes made explicit. -/
def zephyr_request {α : Type} (outcomes : List (AttemptOutcome α)) : Option α × List Nat :=
  zephyrRetry 0 outcomes

/-- An attempt outcome is transient when its exception is one of the two
retriable network failures. -/
def transientB {α : Type} : AttemptOutcome α → Bool
  | .timeout => true
  | .connError => true
  | _ => false

/-! ### CSV loading (`pick`, `load_executions_from_csv`) -/

/-- A parsed CSV row: the header/value pairs of one `csv.DictReader` record. -/
abbrev Row := List (String × String)

/-- One accumulated test-step row of an execution record. -/
structure StepRow where
  step : String
  data : String
  result : String
deriving DecidableEq

/-- One grouped execution record built from the CSV. -/
structure ExecData where
  issue_key : String
  cycle_name : String
  folder_name : String
  version_name : String
  component_name : String
  status : String
  executed_on : String
  executed_by : String
  assigned_to : String
  comment : String
  steps : List StepRow
deriving DecidableEq

/-- Inner scan of `pick` for one alias: first header matching the alias
case-insensitively whose stripped value is non-empty. -/
def pickScan : Row → String → Option String
  | [], _ => none
  | (k, v) :: rest, n =>
    if pyLower (pyStrip k) = pyLower (pyStrip n) ∧ pyStrip v ≠ "" then some (pyStrip v)
    else pickScan rest n

/-- `pick(row, *names, default=...)`: try each alias in order. -/
def pick (row : Row) (names : List String) (dflt : String) : String :=
  match names with
  | [] => dflt
  | n :: rest =>
    match pickScan row n with
    | some v => v
    | none => pick row rest dflt

/-- The fixed allow-list of issue keys this retry run is restricted to. -/
def FAILED_ISSUE_KEYS : List String :=
  ["GCTEST-94808", "GCTEST-95392", "GCTEST-95397",
   "GCTEST-96437", "GCTEST-94722", "GCTEST-95937"]

/-- The row's issue key (`pick(raw, "issue key", "issuekey")`). -/
def rowIssueKey (raw : Row) : String :=
  pick raw ["issue key", "issuekey"] ""

/-- The grouping key: the execution id when present, else the composite
`issue_cycle_folder` fallback. -/
def rowUniqueKey (raw : Row) (issue_key : String) : String :=
  let execution_id := pick raw ["executionid", "execution id"] ""
  if execution_id ≠ "" then execution_id
  else
    issue_key ++ "_" ++ pick raw ["cyclename", "test cycle"] "Ad hoc"
      ++ "_" ++ pick raw ["foldername", "folder"] ""

/-- The fresh record initialised from the first row seen for a key. -/
def rowNewRecord (raw : Row) (issue_key : String) : ExecData :=
  { issue_key := issue_key
    cycle_name := pick raw ["cyclename", "test cycle"] "Ad hoc"
    folder_name := pick raw ["foldername", "folder"] ""
    version_name := pick raw ["version", "fixversion"] "Unscheduled"
    component_name := pick raw ["component"] ""
    status := pick raw ["executionstatus", "status"] "UNEXECUTED"
    executed_on := pick raw ["executed on", "executedon"] ""
    executed_by := pick raw ["executed by", "executedby"] ""
    assigned_to := pick raw ["assigned to", "assignedto"] ""
    comment := pick raw ["comments", "comment"] ""
    steps := [] }

/-- The step entries a row contributes (empty step text contributes none). -/
def rowSteps (raw : Row) : List StepRow :=
  let step_text := pick raw ["step", "teststep", "test step"] ""
  if step_text = "" then []
  else
    let step_data := pick raw ["test data", "data"] ""
    let expected := pick raw ["expected result", "test result", "result"] ""
    [{ step := step_text, data := step_data,
       result := if expected ≠ "" then "Expected: " ++ expected else "" }]

/-- The insertion-ordered `executions` dict. -/
abbrev Execs := List (String × ExecData)

/-- `key in executions`. -/
def containsKey (l : Execs) (k : String) : Bool :=
  (alookup l k).isSome

/-- Append step rows to a record's ordered step list. -/
def withSteps (srows : List StepRow) (ed : ExecData) : ExecData :=
  { ed with steps := ed.steps ++ srows }

/-- `executions[unique_key]["steps"].append(...)` (no-op when the row has
no step text, mirroring the `if step_text:` guard). -/
def appendSteps (l : Execs) (k : String) (srows : List StepRow) : Execs :=
  if srows = [] then l
  else l.map (fun p => if p.1 = k then (p.1, withSteps srows p.2) else p)

/-- The body of the CSV reader loop for one raw row. -/
def loadRow (retry_issue_keys : List String) (execs : Execs) (raw : Row) : Execs :=
  let issue_key := rowIssueKey raw
  if issue_key = "" then execs
  else if issue_key ∉ retry_issue_keys then execs
  else
    let uk := rowUniqueKey raw issue_key
    let execs' := if containsKey execs uk then execs else execs ++ [(uk, rowNewRecord raw issue_key)]
    appendSteps execs' uk (rowSteps raw)

/-- `load_executions_from_csv`: fold the reader loop over the file's rows. -/
def load_executions_from_csv (rows : List Row) (retry_issue_keys : List String) : Execs :=
  rows.foldl (loadRow retry_issue_keys) []

/-! ### Responses and the environment

After the retry wrapper, every HTTP helper sees an `Optional[Response]`.
`Resp β` is such a response: its status code plus the fields of its parsed
JSON body that the source reads (an `Option` body or field stands for a
`resp.json()` call or item access that would fail and be swallowed by the
surrounding `try`/`except`).  `Env` fixes the outside world for a run. -/

/-- An HTTP response as the source observes it. -/
structure Resp (β : Type) where
  status_code : Nat
  body : β
deriving DecidableEq

/-- `resp and resp.status_code in codes` (false when the request returned
`None`). -/
def statusIn {β : Type} (r : Option (Resp β)) (codes : List Nat) : Bool :=
  match r with
  | some r => codes.contains r.status_code
  | none => false

/-- Parsed body of a cycle-creation response: the `id` / `cycleId` items. -/
structure CycleBody where
  id : Option String
  cycleId : Option String
deriving DecidableEq

/-- One folder object from the folders listing or a creation response. -/
structure FolderObj where
  name : String
  id : Option String
  folderId : Option String
deriving DecidableEq

/-- Parsed body of an execution-creation response: `execution.id` / `id`. -/
structure ExecBody where
  execId : Option String
  topId : Option String
deriving DecidableEq

/-- One entry of the prefetched Jira user directory. -/
structure UserObj where
  displayName : String
  accountId : Option String
deriving DecidableEq

/-- Body of the execution `PUT` (status / fields) call. -/
structure ExecPutBody where
  statusId : Int
  projectId : Int
  versionId : Int
  cycleId : String
  issueId : String
  executedOn : Option Int
  executedBy : Option String
  assignedTo : Option String
deriving DecidableEq

/-- The outside world: each field gives the (deterministic) response the
corresponding endpoint returns for given arguments, `strptimeMillis` stands
for the `datetime.strptime(...).timestamp()` library behaviour, and
`allUsers` is the user directory prefetched by `get_all_users`. -/
structure Env where
  getIssue : String → Option (Resp String)
  postComponent : String → String → Option (Resp (Option String))
  putIssueComponents : String → String → Option (Resp Unit)
  getTeststeps : String → Int → Option (Resp (Option (List String)))
  postTeststep : String → Int → Nat → StepRow → Option (Resp Unit)
  postVersion : String → Int → Option (Resp (Option Int))
  postCycle : String → Int → Int → Option (Resp CycleBody)
  getFolders : Int → Int → String → Option (Resp (Option (List FolderObj)))
  postFolder : String → Int → Int → String → Option (Resp (Option FolderObj))
  postExecution : String → Int → Int → String → Option String → Option (Resp (Option ExecBody))
  putExecution : String → ExecPutBody → Option (Resp Unit)
  postComment : String → String → Option (Resp Unit)
  deleteExec : String → String → Option (Resp Unit)
  strptimeMillis : String → Option Int
  allUsers : List UserObj

/-- The API calls a run performs, recorded as a trace. -/
inductive ApiCall where
  | getIssue (issueKey : String)
  | postComponent (name : String)
  | putIssueComponents (issueKey componentId : String)
  | getTeststeps (issueId : String)
  | postTeststep (issueId : String) (position : Nat)
  | postVersion (name : String)
  | postCycle (name : String) (versionId : Int)
  | getFolders (projectId versionId : Int) (cycleId : String)
  | postFolder (name : String) (versionId : Int) (cycleId : String)
  | postExecution (issueId : String)
  | putExecution (executionId : String) (body : ExecPutBody)
  | postComment (executionId : String)
  | deleteExecution (executionId : String)
  | rateLimitSleep
deriving DecidableEq

/-! ### Jira / Zephyr lookups and get-or-create resolvers -/

/-- `get_issue_id`: memoised issue-key → issue-id lookup; a failed lookup is
cached as `None`. -/
def get_issue_id (env : Env) (issue_key : String) (cache : AList String (Option String)) :
    Option String × AList String (Option String) × List ApiCall :=
  match alookup cache issue_key with
  | some v => (v, cache, [])
  | none =>
    match env.getIssue issue_key with
    | some r =>
      if r.status_code = 200 then
        (some r.body, ainsert cache issue_key (some r.body), [ApiCall.getIssue issue_key])
      else (none, ainsert cache issue_key none, [ApiCall.getIssue issue_key])
    | none => (none, ainsert cache issue_key none, [ApiCall.getIssue issue_key])

/-- `get_or_create_component_id`: map hit, else `POST /component`; only a
successful creation is inserted into the map. -/
def get_or_create_component_id (env : Env) (project_key : String)
    (components_map : AList String String) (component_name : String) :
    Option String × AList String String × List ApiCall :=
  if pyStrip component_name = "" then (none, components_map, [])
  else
    let name := pyStrip component_name
    match alookup components_map name with
    | some cid => (some cid, components_map, [])
    | none =>
      match env.postComponent project_key name with
      | some r =>
        if r.status_code = 200 ∨ r.status_code = 201 then
          match r.body with
          | some cid => (some cid, ainsert components_map name cid, [ApiCall.postComponent name])
          | none => (none, components_map, [ApiCall.postComponent name])
        else (none, components_map, [ApiCall.postComponent name])
      | none => (none, components_map, [ApiCall.postComponent name])

/-- `update_issue_component`: `PUT` the component onto the issue (vacuously
true for an empty component id). -/
def update_issue_component (env : Env) (issue_key component_id : String) :
    Bool × List ApiCall :=
  if component_id = "" then (true, [])
  else
    (statusIn (env.putIssueComponents issue_key component_id) [200, 204],
     [ApiCall.putIssueComponents issue_key component_id])

/-- `get_or_create_version_id`: blank or `unscheduled` names map to the
sentinel `-1` with no call; otherwise map hit, else `POST /version`; every
failure path yields `-1`. -/
def get_or_create_version_id (env : Env) (project_id : Int)
    (versions_map : AList String Int) (version_name : String) :
    Int × AList String Int × List ApiCall :=
  if pyStrip version_name = "" ∨ pyLower version_name = "unscheduled" then
    (-1, versions_map, [])
  else
    let name := pyStrip version_name
    match alookup versions_map name with
    | some vid => (vid, versions_map, [])
    | none =>
      match env.postVersion name project_id with
      | some r =>
        if r.status_code = 200 ∨ r.status_code = 201 then
          match r.body with
          | some vid => (vid, ainsert versions_map name vid, [ApiCall.postVersion name])
          | none => (-1, versions_map, [ApiCall.postVersion name])
        else (-1, versions_map, [ApiCall.postVersion name])
      | none => (-1, versions_map, [ApiCall.postVersion name])

/-- `get_or_create_cycle_id`: empty names become `Ad hoc`; the cache is
keyed by `(cycle_name, version_id)` and also stores failed creations. -/
def get_or_create_cycle_id (env : Env) (project_id version_id : Int) (cycle_name : String)
    (cache : AList (String × Int) (Option String)) :
    Option String × AList (String × Int) (Option String) × List ApiCall :=
  let cycle_name := if cycle_name = "" then "Ad hoc" else cycle_name
  let key := (cycle_name, version_id)
  match alookup cache key with
  | some v => (v, cache, [])
  | none =>
    match env.postCycle cycle_name project_id version_id with
    | some r =>
      if r.status_code = 200 ∨ r.status_code = 201 then
        let cid := pyStrOpt (pyOr r.body.id r.body.cycleId)
        (some cid, ainsert cache key (some cid), [ApiCall.postCycle cycle_name version_id])
      else (none, ainsert cache key none, [ApiCall.postCycle cycle_name version_id])
    | none => (none, ainsert cache key none, [ApiCall.postCycle cycle_name version_id])

/-- Append a created folder's body onto the listing cached for its scope. -/
def folderscacheAppend (l : AList (Int × Int × String) (List FolderObj))
    (k : Int × Int × String) (d : FolderObj) : AList (Int × Int × String) (List FolderObj) :=
  l.map (fun p => if p.1 = k then (p.1, p.2 ++ [d]) else p)

/-- `get_or_create_folder_id`: per-key cache (failures included), backed by
a lazily fetched per-`(project, version, cycle)` folder listing, with
creation as the fallback. -/
def get_or_create_folder_id (env : Env) (project_id version_id : Int) (cycle_id : String)
    (folder_name : String)
    (cache : AList (String × Int × Int × String) (Option String))
    (folders_cache : AList (Int × Int × String) (List FolderObj)) :
    Option String × AList (String × Int × Int × String) (Option String)
      × AList (Int × Int × String) (List FolderObj) × List ApiCall :=
  if pyStrip folder_name = "" then (none, cache, folders_cache, [])
  else
    let key := (folder_name, project_id, version_id, cycle_id)
    match alookup cache key with
    | some v => (v, cache, folders_cache, [])
    | none =>
      let list_key := (project_id, version_id, cycle_id)
      let fetched :=
        match alookup folders_cache list_key with
        | some _ => (folders_cache, ([] : List ApiCall))
        | none =>
          let entry :=
            match env.getFolders project_id version_id cycle_id with
            | some r => if r.status_code = 200 then r.body.getD [] else []
            | none => []
          (ainsert folders_cache list_key entry,
           [ApiCall.getFolders project_id version_id cycle_id])
      let folders_cache' := fetched.1
      let lst := (alookup folders_cache' list_key).getD []
      let found :=
        match lst.find? (fun f => pyLower (pyStrip f.name) = pyLower (pyStrip folder_name)) with
        | some f => some (pyStrOpt f.id)
        | none => none
      if optTruthy found then
        (found, ainsert cache key found, folders_cache', fetched.2)
      else
        match env.postFolder folder_name project_id version_id cycle_id with
        | some r =>
          if r.status_code = 200 ∨ r.status_code = 201 then
            match r.body with
            | some d =>
              let fid := pyStrOpt (pyOr d.id d.folderId)
              (some fid, ainsert cache key (some fid),
               folderscacheAppend folders_cache' list_key d,
               fetched.2 ++ [ApiCall.postFolder folder_name version_id cycle_id])
            | none =>
              (found, ainsert cache key found, folders_cache',
               fetched.2 ++ [ApiCall.postFolder folder_name version_id cycle_id])
          else
            (found, ainsert cache key found, folders_cache',
             fetched.2 ++ [ApiCall.postFolder folder_name version_id cycle_id])
        | none =>
          (found, ainsert cache key found, folders_cache',
           fetched.2 ++ [ApiCall.postFolder folder_name version_id cycle_id])

/-- `get_user_account_id`: cache, then the operator mapping (normalised
name first, raw name second), then a case-insensitive directory search;
every outcome, including absence, is cached. -/
def get_user_account_id (env : Env) (name : String)
    (cache : AList String (Option String)) (user_mapping : AList String String) :
    Option String × AList String (Option String) :=
  if name = "" then (none, cache)
  else
    let original := normalize_user_name name
    match alookup cache original with
    | some v => (v, cache)
    | none =>
      match alookup user_mapping original with
      | some aid => (some aid, ainsert cache original (some aid))
      | none =>
        match alookup user_mapping name with
        | some aid => (some aid, ainsert cache original (some aid))
        | none =>
          match env.allUsers.find?
              (fun u => pyLower (normalize_whitespace u.displayName) = pyLower original) with
          | some u => (u.accountId, ainsert cache original u.accountId)
          | none => (none, ainsert cache original none)

/-! ### Execution helpers -/

/-- The fixed status table of the source. -/
def STATUS_MAP : AList String Int :=
  [("PASS", 1), ("FAIL", 2), ("WIP", 3), ("BLOCKED", 4), ("UNEXECUTED", -1)]

/-- `STATUS_MAP.get(status.upper(), -1)` as used by `execute_execution`. -/
def statusKey (status : String) : Int :=
  (alookup STATUS_MAP (pyUpper status)).getD (-1)

/-- `parse_date_to_millis`: blank strings parse to `None`; otherwise the
`strptime` format cascade (library behaviour, supplied by the `Env`). -/
def parse_date_to_millis (env : Env) (date_str : String) : Option Int :=
  if pyStrip date_str = "" then none else env.strptimeMillis (pyStrip date_str)

/-- `get_existing_test_steps`: the issue's current steps, `[]` on any
failure. -/
def get_existing_test_steps (env : Env) (project_id : Int) (issue_id : String) :
    List String × List ApiCall :=
  (match env.getTeststeps issue_id project_id with
   | some r => if r.status_code = 200 then r.body.getD [] else []
   | none => [],
   [ApiCall.getTeststeps issue_id])

/-- `create_test_step` for one step at a 1-based position. -/
def create_test_step (env : Env) (project_id : Int) (issue_id : String) (position : Nat)
    (s : StepRow) : Bool × List ApiCall :=
  (statusIn (env.postTeststep issue_id project_id position s) [200, 201],
   [ApiCall.postTeststep issue_id position])

/-- `sync_steps_for_issue`: skip when the record has no steps or the issue
already has steps; otherwise create each step in order. -/
def sync_steps_for_issue (env : Env) (project_id : Int) (issue_id : String)
    (steps : List StepRow) : List ApiCall :=
  if steps = [] then []
  else
    let existing := get_existing_test_steps env project_id issue_id
    if existing.1 ≠ [] then existing.2
    else
      existing.2 ++
        (List.range steps.length).flatMap
          (fun i =>
            match steps[i]? with
            | some s => (create_test_step env project_id issue_id (i + 1) s).2
            | none => [])

/-- `create_execution`: `POST /execution`, extracting `execution.id`
(falling back to the top-level `id`), `None` on every failure path. -/
def create_execution (env : Env) (project_id version_id : Int) (cycle_id : String)
    (folder_id : Option String) (issue_id : String) : Option String × List ApiCall :=
  (match env.postExecution issue_id project_id version_id cycle_id folder_id with
   | none => none
   | some r =>
     if r.status_code = 200 ∨ r.status_code = 201 then
       match r.body with
       | some d =>
         let e := pyOr d.execId d.topId
         if optTruthy e then some (pyStrOpt e) else none
       | none => none
     else none,
   [ApiCall.postExecution issue_id])

/-- `add_execution_comment` (vacuously true for a blank comment). -/
def add_execution_comment (env : Env) (execution_id comment_text : String) :
    Bool × List ApiCall :=
  if pyStrip comment_text = "" then (true, [])
  else
    (statusIn (env.postComment execution_id (pyStrip comment_text)) [200, 201],
     [ApiCall.postComment execution_id])

/-- `delete_execution`: best-effort `DELETE` of a created execution. -/
def delete_execution (env : Env) (execution_id issue_id : String) : Bool × List ApiCall :=
  (statusIn (env.deleteExec execution_id issue_id) [200, 204],
   [ApiCall.deleteExecution execution_id])

/-- `execute_execution`: `PUT` status and optional executed-on/by and
assignee fields onto a created execution. -/
def execute_execution (env : Env) (execution_id issue_id : String)
    (project_id version_id : Int) (cycle_id : String) (exec_data : ExecData)
    (executed_by_id assigned_to_id : Option String) : Bool × List ApiCall :=
  let millis := parse_date_to_millis env exec_data.executed_on
  let body : ExecPutBody :=
    { statusId := statusKey exec_data.status
      projectId := project_id
      versionId := version_id
      cycleId := cycle_id
      issueId := issue_id
      executedOn := if optIntTruthy millis then millis else none
      executedBy := if optTruthy executed_by_id then executed_by_id else none
      assignedTo := if optTruthy assigned_to_id then assigned_to_id else none }
  (statusIn (env.putExecution execution_id body) [200, 204],
   [ApiCall.putExecution execution_id body])

/-! ### The migration loop -/

/-- A reported failure: the record's fields plus the reason column and, for
compensated records, the deleted execution id. -/
structure FailureItem where
  record : ExecData
  failure_reason : String
  execution_id : Option String
deriving DecidableEq

/-- The mutable state of `migrate_executions` while iterating records. -/
structure LoopState where
  versions_map : AList String Int
  components_map : AList String String
  issue_id_cache : AList String (Option String)
  cycle_cache : AList (String × Int) (Option String)
  folder_cache : AList (String × Int × Int × String) (Option String)
  folders_list_cache : AList (Int × Int × String) (List FolderObj)
  user_cache : AList String (Option String)
  steps_created_for_issue : List String
  created : Nat
  failed : Nat
  failed_items : List FailureItem
deriving DecidableEq

/-- Register a record as failed with a reason (and optional execution id). -/
def recordFail (st : LoopState) (ed : ExecData) (reason : String)
    (execution_id : Option String) : LoopState :=
  { st with
    failed := st.failed + 1
    failed_items := st.failed_items ++ [⟨ed, reason, execution_id⟩] }

/-- The component-update block of the loop body. -/
def stepComponent (env : Env) (project_key : String) (components_map : AList String String)
    (ed : ExecData) : AList String String × List ApiCall :=
  if ed.component_name ≠ "" then
    let r := get_or_create_component_id env project_key components_map ed.component_name
    if optTruthy r.1 then
      (r.2.1, r.2.2 ++ (update_issue_component env ed.issue_key (r.1.getD "")).2)
    else (r.2.1, r.2.2)
  else (components_map, [])

/-- The once-per-issue test-step block of the loop body. -/
def stepSync (env : Env) (project_id : Int) (steps_created : List String) (ed : ExecData)
    (issue_id : String) : List String × List ApiCall :=
  if ed.issue_key ∉ steps_created ∧ ed.steps ≠ [] then
    (ed.issue_key :: steps_created, sync_steps_for_issue env project_id issue_id ed.steps)
  else (steps_created, [])

/-- The folder block of the loop body (only for a non-empty folder name). -/
def stepFolder (env : Env) (project_id version_id : Int) (cycle_id : String)
    (cache : AList (String × Int × Int × String) (Option String))
    (folders_cache : AList (Int × Int × String) (List FolderObj)) (ed : ExecData) :
    Option String × AList (String × Int × Int × String) (Option String)
      × AList (Int × Int × String) (List FolderObj) × List ApiCall :=
  if ed.folder_name ≠ "" then
    get_or_create_folder_id env project_id version_id cycle_id ed.folder_name cache folders_cache
  else (none, cache, folders_cache, [])

/-- One user-resolution block of the loop body. -/
def stepUser (env : Env) (cache : AList String (Option String))
    (user_mapping : AList String String) (name : String) :
    Option String × AList String (Option String) :=
  if name ≠ "" then get_user_account_id env name cache user_mapping
  else (none, cache)

/-- The tail of the loop body, from execution creation to the rate-limit
sleep: create, set status, then either comment (success) or compensating
delete (failure). -/
def processTail (env : Env) (project_id : Int) (st : LoopState) (ed : ExecData)
    (issue_id : String) (version_id : Int) (cycle_id : String)
    (executed_by_id assigned_to_id folder_id : Option String) :
    LoopState × List ApiCall :=
  let creation := create_execution env project_id version_id cycle_id folder_id issue_id
  if ¬ optTruthy creation.1 then
    (recordFail st ed "Could not create execution" none, creation.2)
  else
    let new_exec_id := creation.1.getD ""
    let ex := execute_execution env new_exec_id issue_id project_id version_id cycle_id ed
      executed_by_id assigned_to_id
    if ex.1 then
      let commentCalls :=
        if ed.comment ≠ "" then (add_execution_comment env new_exec_id ed.comment).2 else []
      ({ st with created := st.created + 1 },
       creation.2 ++ ex.2 ++ commentCalls ++ [ApiCall.rateLimitSleep])
    else
      (recordFail st ed "Could not execute execution (deleted)" (some new_exec_id),
       creation.2 ++ ex.2 ++ (delete_execution env new_exec_id issue_id).2
         ++ [ApiCall.rateLimitSleep])

/-- The body of the `for` loop of `migrate_executions` for one record. -/
def processRecord (env : Env) (project_key : String) (project_id : Int)
    (user_mapping : AList String String) (st : LoopState) (ed : ExecData) :
    LoopState × List ApiCall :=
  let issueLookup := get_issue_id env ed.issue_key st.issue_id_cache
  let st1 := { st with issue_id_cache := issueLookup.2.1 }
  if ¬ optTruthy issueLookup.1 then
    (recordFail st1 ed "Issue not found" none, issueLookup.2.2)
  else
    let issue_id := issueLookup.1.getD ""
    let comp := stepComponent env project_key st1.components_map ed
    let st2 := { st1 with components_map := comp.1 }
    let sync := stepSync env project_id st2.steps_created_for_issue ed issue_id
    let st3 := { st2 with steps_created_for_issue := sync.1 }
    let ver := get_or_create_version_id env project_id st3.versions_map ed.version_name
    let version_id := ver.1
    let st4 := { st3 with versions_map := ver.2.1 }
    let cyc := get_or_create_cycle_id env project_id version_id ed.cycle_name st4.cycle_cache
    let st5 := { st4 with cycle_cache := cyc.2.1 }
    if ¬ optTruthy cyc.1 then
      (recordFail st5 ed "Could not create cycle" none,
       issueLookup.2.2 ++ comp.2 ++ sync.2 ++ ver.2.2 ++ cyc.2.2)
    else
      let cycle_id := cyc.1.getD ""
      let fold := stepFolder env project_id version_id cycle_id st5.folder_cache
        st5.folders_list_cache ed
      let folder_id := fold.1
      let st6 := { st5 with folder_cache := fold.2.1, folders_list_cache := fold.2.2.1 }
      let ub := stepUser env st6.user_cache user_mapping ed.executed_by
      let executed_by_id := ub.1
      let st7 := { st6 with user_cache := ub.2 }
      let ua := stepUser env st7.user_cache user_mapping ed.assigned_to
      let assigned_to_id := ua.1
      let st8 := { st7 with user_cache := ua.2 }
      let tail := processTail env project_id st8 ed issue_id version_id cycle_id
        executed_by_id assigned_to_id folder_id
      (tail.1, issueLookup.2.2 ++ comp.2 ++ sync.2 ++ ver.2.2 ++ cyc.2.2
        ++ fold.2.2.2 ++ tail.2)

/-- `migrate_executions`' record loop over the grouped executions. -/
def migrate_loop (env : Env) (project_key : String) (project_id : Int)
    (user_mapping : AList String String) :
    LoopState → List ExecData → LoopState × List ApiCall
  | st, [] => (st, [])
  | st, ed :: rest =>
    let one := processRecord env project_key project_id user_mapping st ed
    let more := migrate_loop env project_key project_id user_mapping one.1 rest
    (more.1, one.2 ++ more.2)

/-! ### Concrete worlds and records used to instantiate the theorems -/

/-- Calls performed before the execution `PUT`: everything except the
status-setting call and the rate-limit sleep. -/
def preCall : ApiCall → Bool
  | .putExecution _ _ => false
  | .rateLimitSleep => false
  | _ => true

/-- The loop state at the start of a run: empty caches and counters. -/
def emptyState : LoopState :=
  { versions_map := []
    components_map := []
    issue_id_cache := []
    cycle_cache := []
    folder_cache := []
    folders_list_cache := []
    user_cache := []
    steps_created_for_issue := []
    created := 0
    failed := 0
    failed_items := [] }

/-- A world in which every request returns `None` (all requests fail). -/
def envDown : Env :=
  { getIssue := fun _ => none
    postComponent := fun _ _ => none
    putIssueComponents := fun _ _ => none
    getTeststeps := fun _ _ => none
    postTeststep := fun _ _ _ _ => none
    postVersion := fun _ _ => none
    postCycle := fun _ _ _ => none
    getFolders := fun _ _ _ => none
    postFolder := fun _ _ _ _ => none
    postExecution := fun _ _ _ _ _ => none
    putExecution := fun _ _ => none
    postComment := fun _ _ => none
    deleteExec := fun _ _ => none
    strptimeMillis := fun _ => none
    allUsers := [] }

/-- A world in which every creation succeeds with fixed identifiers. -/
def envHappy : Env :=
  { getIssue := fun _ => some ⟨200, "1001"⟩
    postComponent := fun _ _ => some ⟨201, some "10200"⟩
    putIssueComponents := fun _ _ => some ⟨204, ()⟩
    getTeststeps := fun _ _ => some ⟨200, some []⟩
    postTeststep := fun _ _ _ _ => some ⟨200, ()⟩
    postVersion := fun _ _ => some ⟨201, some 31⟩
    postCycle := fun _ _ _ => some ⟨201, ⟨some "77", none⟩⟩
    getFolders := fun _ _ _ => some ⟨200, some []⟩
    postFolder := fun _ _ _ _ => some ⟨201, some ⟨"Folder", some "900", none⟩⟩
    postExecution := fun _ _ _ _ _ => some ⟨200, some ⟨some "500", none⟩⟩
    putExecution := fun _ _ => some ⟨200, ()⟩
    postComment := fun _ _ => some ⟨200, ()⟩
    deleteExec := fun _ _ => some ⟨204, ()⟩
    strptimeMillis := fun _ => none
    allUsers := [] }

/-- A world in which creation succeeds but the status-setting `PUT`
always fails. -/
def envPutFails : Env :=
  { envHappy with putExecution := fun _ _ => none }

/-- The retry scenario row from the spec: `GCTEST-94808`, status `PASS`,
cycle `Sprint1`, version `Unscheduled`. -/
def sampleRecord : ExecData :=
  { issue_key := "GCTEST-94808"
    cycle_name := "Sprint1"
    folder_name := ""
    version_name := "Unscheduled"
    component_name := ""
    status := "PASS"
    executed_on := ""
    executed_by := ""
    assigned_to := ""
    comment := ""
    steps := [] }

/-- The `PUT` body the scenario record produces. -/
def sampleBody : ExecPutBody :=
  { statusId := 1
    projectId := 10000
    versionId := -1
    cycleId := "77"
    issueId := "1001"
    executedOn := none
    executedBy := none
    assignedTo := none }

end Zephyr

namespace Zephyr

/-! ## Theorems -/

/-- Exhausting a run of transient failures leaves the jira client absent. -/
theorem jiraRetry_transient_exhausted {α : Type} :
    ∀ (outs : List (AttemptOutcome α)) (i : Nat), (∀ o ∈ outs, transientB o = true) →
      (jiraRetry i outs).1 = none := by
  intro outs
  induction outs with
  | nil => intro i _; rfl
  | cons o rest ih =>
    intro i h
    have ho := h o (by simp)
    have hrest : ∀ x ∈ rest, transientB x = true := fun x hx => h x (by simp [hx])
    cases o with
    | success r => simp [transientB] at ho
    | timeout =>
      by_cases he : rest.isEmpty
      · simp [jiraRetry, he]
      · simp [jiraRetry, he, ih (i + 1) hrest]
    | connError => rfl
    | otherError => simp [transientB] at ho

/-- Exhausting a run of transient failures leaves the zephyr client absent. -/
theorem zephyrRetry_transient_exhausted {α : Type} :
    ∀ (outs : List (AttemptOutcome α)) (i : Nat), (∀ o ∈ outs, transientB o = true) →
      (zephyrRetry i outs).1 = none := by
  intro outs
  induction outs with
  | nil => intro i _; rfl
  | cons o rest ih =>
    intro i h
    have ho := h o (by simp)
    have hrest : ∀ x ∈ rest, transientB x = true := fun x hx => h x (by simp [hx])
    cases o with
    | success r => simp [transientB] at ho
    | timeout =>
      by_cases he : rest.isEmpty
      · simp [zephyrRetry, he]
      · simp [zephyrRetry, he, ih (i + 1) hrest]
    | connError =>
      by_cases he : rest.isEmpty
      · simp [zephyrRetry, he]
      · simp [zephyrRetry, he, ih (i + 1) hrest]
    | otherError => simp [transientB] at ho

/-- C3 counterexample: a connect failure on the first attempt is *not*
retried by the Jira client (it returns an absent result at once, with no
backoff sleep), while the identical attempt sequence succeeds on retry
under the Zephyr client's policy. -/
theorem jira_connError_not_retried :
    jira_request [AttemptOutcome.connError, AttemptOutcome.success (7 : Nat)] = (none, []) ∧
    zephyr_request [AttemptOutcome.connError, AttemptOutcome.success (7 : Nat)] = (some 7, [2]) := by
  exact ⟨rfl, rfl⟩

/-- C3 (amended): the Zephyr client retries both timeouts and connect
failures with linear backoff `(attempt + 1) * 2` up to the attempt bound;
the Jira client retries only timeouts, and treats a connect failure like
any other exception, returning an absent result immediately; on any other
exception, on a transient failure of the final attempt, or on a fully
transient attempt sequence, both clients return an absent result. -/
theorem http_retry_policy :
    (∀ (α : Type) (i : Nat) (r : α) (rest : List (AttemptOutcome α)),
        jiraRetry i (.success r :: rest) = (some r, []) ∧
        zephyrRetry i (.success r :: rest) = (some r, [])) ∧
    (∀ (α : Type) (i : Nat) (rest : List (AttemptOutcome α)), rest ≠ [] →
        jiraRetry i (.timeout :: rest)
          = ((jiraRetry (i + 1) rest).1, (i + 1) * 2 :: (jiraRetry (i + 1) rest).2) ∧
        zephyrRetry i (.timeout :: rest)
          = ((zephyrRetry (i + 1) rest).1, (i + 1) * 2 :: (zephyrRetry (i + 1) rest).2) ∧
        zephyrRetry i (.connError :: rest)
          = ((zephyrRetry (i + 1) rest).1, (i + 1) * 2 :: (zephyrRetry (i + 1) rest).2)) ∧
    (∀ (α : Type) (i : Nat) (rest : List (AttemptOutcome α)),
        jiraRetry i (.connError :: rest) = (none, []) ∧
        jiraRetry i (.otherError :: rest) = (none, []) ∧
        zephyrRetry i (.otherError :: rest) = (none, [])) ∧
    (∀ (α : Type) (i : Nat),
        jiraRetry i ([] : List (AttemptOutcome α)) = (none, []) ∧
        jiraRetry i [(.timeout : AttemptOutcome α)] = (none, []) ∧
        zephyrRetry i [(.timeout : AttemptOutcome α)] = (none, []) ∧
        zephyrRetry i [(.connError : AttemptOutcome α)] = (none, [])) ∧
    (∀ (α : Type) (i : Nat) (outs : List (AttemptOutcome α)),
        (∀ o ∈ outs, transientB o = true) →
        (jiraRetry i outs).1 = none ∧ (zephyrRetry i outs).1 = none) := by
  refine ⟨fun α i r rest => ⟨rfl, rfl⟩, fun α i rest hrest => ?_,
    fun α i rest => ⟨rfl, rfl, rfl⟩, fun α i => ⟨rfl, rfl, rfl, rfl⟩,
    fun α i outs h =>
      ⟨jiraRetry_transient_exhausted outs i h, zephyrRetry_transient_exhausted outs i h⟩⟩
  have he : rest.isEmpty = false := by
    cases rest with
    | nil => exact absurd rfl hrest
    | cons x xs => rfl
  refine ⟨?_, ?_, ?_⟩ <;> simp [jiraRetry, zephyrRetry, he]

/-- Witness for `http_retry_policy` at concrete attempt sequences. -/
theorem http_retry_policy_witness :
    (jiraRetry 0 [AttemptOutcome.timeout, AttemptOutcome.success (5 : Nat)]
        = ((jiraRetry 1 [AttemptOutcome.success (5 : Nat)]).1,
           2 :: (jiraRetry 1 [AttemptOutcome.success (5 : Nat)]).2) ∧
      zephyrRetry 0 [AttemptOutcome.timeout, AttemptOutcome.success (5 : Nat)]
        = ((zephyrRetry 1 [AttemptOutcome.success (5 : Nat)]).1,
           2 :: (zephyrRetry 1 [AttemptOutcome.success (5 : Nat)]).2) ∧
      zephyrRetry 0 [AttemptOutcome.connError, AttemptOutcome.success (5 : Nat)]
        = ((zephyrRetry 1 [AttemptOutcome.success (5 : Nat)]).1,
           2 :: (zephyrRetry 1 [AttemptOutcome.success (5 : Nat)]).2)) ∧
    ((jiraRetry 0 [AttemptOutcome.timeout, AttemptOutcome.timeout,
        (AttemptOutcome.timeout : AttemptOutcome Nat)]).1 = none ∧
      (zephyrRetry 0 [AttemptOutcome.timeout, AttemptOutcome.connError,
        (AttemptOutcome.timeout : AttemptOutcome Nat)]).1 = none) := by
  constructor
  · exact http_retry_policy.2.1 Nat 0 [AttemptOutcome.success (5 : Nat)] (by decide)
  · constructor
    · exact (http_retry_policy.2.2.2.2 Nat 0
        [AttemptOutcome.timeout, AttemptOutcome.timeout, AttemptOutcome.timeout] (by decide)).1
    · exact (http_retry_policy.2.2.2.2 Nat 0
        [AttemptOutcome.timeout, AttemptOutcome.connError, AttemptOutcome.timeout] (by decide)).2

end Zephyr

namespace Zephyr

/-- C7 counterexample: the status string `"pass"` is not a key of the fixed
table, yet it maps to `1` (the source uppercases the status before the
lookup), not to `-1` as the claim's "any other status maps to -1" wording
requires. -/
theorem statusKey_lowercase_pass :
    alookup STATUS_MAP "pass" = none ∧ statusKey "pass" = 1 ∧ statusKey "pass" ≠ -1 := by
  refine ⟨by decide, by decide, by decide⟩

/-- C7 (amended): the *uppercased* status string maps through the fixed
table `PASS=1, FAIL=2, WIP=3, BLOCKED=4, UNEXECUTED=-1`, and any status
whose uppercase form is missing from the table maps to `-1`; a record with
status `PASS` and version name `Unscheduled` yields status id `1` and
version id `-1` (the version resolver returns the sentinel with no API
call). -/
theorem status_table_uppercased :
    statusKey "PASS" = 1 ∧ statusKey "FAIL" = 2 ∧ statusKey "WIP" = 3 ∧
    statusKey "BLOCKED" = 4 ∧ statusKey "UNEXECUTED" = -1 ∧
    (∀ s : String, alookup STATUS_MAP (pyUpper s) = none → statusKey s = -1) ∧
    (∀ (env : Env) (pid : Int) (vmap : AList String Int),
        get_or_create_version_id env pid vmap "Unscheduled" = (-1, vmap, [])) ∧
    (∀ (env : Env) (eid iid : String) (pid vid : Int) (cid : String) (ed : ExecData)
        (ub ua : Option String), ed.status = "PASS" →
        ∃ b : ExecPutBody,
          (execute_execution env eid iid pid vid cid ed ub ua).2
            = [ApiCall.putExecution eid b] ∧ b.statusId = 1 ∧ b.versionId = vid) := by
  refine ⟨by decide, by decide, by decide, by decide, by decide, ?_, ?_, ?_⟩
  · intro s hs
    unfold statusKey
    rw [hs]
    rfl
  · intro env pid vmap
    unfold get_or_create_version_id
    rw [if_pos (Or.inr (by decide))]
  · intro env eid iid pid vid cid ed ub ua hstatus
    refine ⟨_, rfl, ?_, rfl⟩
    show statusKey ed.status = 1
    rw [hstatus]
    decide

/-- Witness for `status_table_uppercased` at concrete inputs. -/
theorem status_table_uppercased_witness :
    statusKey "Passed" = -1 ∧
    get_or_create_version_id envDown 10000 [] "Unscheduled" = (-1, [], []) ∧
    (∃ b : ExecPutBody,
        (execute_execution envDown "500" "1001" 10000 (-1) "77" sampleRecord none none).2
          = [ApiCall.putExecution "500" b] ∧ b.statusId = 1 ∧ b.versionId = -1) := by
  refine ⟨status_table_uppercased.2.2.2.2.2.1 "Passed" (by decide),
    status_table_uppercased.2.2.2.2.2.2.1 envDown 10000 [],
    status_table_uppercased.2.2.2.2.2.2.2 envDown "500" "1001" 10000 (-1) "77"
      sampleRecord none none rfl⟩

/-- C8: a CSV row whose resolved issue key is empty or outside the fixed
retry allow-list leaves the execution set of the whole load unchanged. -/
theorem csv_allowlist_excludes_row (rows₁ rows₂ : List Row) (raw : Row)
    (h : rowIssueKey raw = "" ∨ rowIssueKey raw ∉ FAILED_ISSUE_KEYS) :
    load_executions_from_csv (rows₁ ++ raw :: rows₂) FAILED_ISSUE_KEYS
      = load_executions_from_csv (rows₁ ++ rows₂) FAILED_ISSUE_KEYS := by
  have hrow : ∀ execs, loadRow FAILED_ISSUE_KEYS execs raw = execs := by
    intro execs
    by_cases he : rowIssueKey raw = ""
    · simp [loadRow, he]
    · rcases h with h | h
      · exact absurd h he
      · simp [loadRow, he, h]
  unfold load_executions_from_csv
  rw [List.foldl_append, List.foldl_append, List.foldl_cons, hrow]

/-- Witness for `csv_allowlist_excludes_row`: a row for an issue outside
the allow-list loads to the same (empty) execution set as no row at all. -/
theorem csv_allowlist_excludes_row_witness :
    load_executions_from_csv [[("Issue Key", "OTHER-1")]] FAILED_ISSUE_KEYS
      = load_executions_from_csv [] FAILED_ISSUE_KEYS :=
  csv_allowlist_excludes_row [] [] [("Issue Key", "OTHER-1")] (Or.inr (by decide))

/-- Looking up the key an update targeted maps the stored record. -/
theorem alookup_map_update (l : Execs) (k : String) (f : ExecData → ExecData) :
    alookup (l.map (fun p => if p.1 = k then (p.1, f p.2) else p)) k
      = (alookup l k).map f := by
  induction l with
  | nil => rfl
  | cons p rest ih =>
    obtain ⟨k', v⟩ := p
    rw [List.map_cons]
    dsimp only
    by_cases hp : k' = k
    · rw [if_pos hp]
      simp only [alookup]
      rw [if_pos hp, if_pos hp]
      rfl
    · rw [if_neg hp]
      simp only [alookup]
      rw [if_neg hp, if_neg hp]
      exact ih

/-- Appending no steps to a record leaves it unchanged. -/
theorem withSteps_nil (ed : ExecData) : withSteps [] ed = ed := by
  cases ed
  simp [withSteps]

/-- C9: when a row's grouping key is already present, the load step only
appends the row's step entries to the stored record; every non-step field
keeps the value the first row gave it, and all other records are
untouched. -/
theorem csv_first_row_wins (retry : List String) (execs : Execs) (raw : Row)
    (h1 : rowIssueKey raw ≠ "") (h2 : rowIssueKey raw ∈ retry)
    (h3 : containsKey execs (rowUniqueKey raw (rowIssueKey raw)) = true) :
    loadRow retry execs raw
      = appendSteps execs (rowUniqueKey raw (rowIssueKey raw)) (rowSteps raw) ∧
    ∀ ed, alookup execs (rowUniqueKey raw (rowIssueKey raw)) = some ed →
      alookup (loadRow retry execs raw) (rowUniqueKey raw (rowIssueKey raw))
        = some (withSteps (rowSteps raw) ed) := by
  have hmain : loadRow retry execs raw
      = appendSteps execs (rowUniqueKey raw (rowIssueKey raw)) (rowSteps raw) := by
    simp only [loadRow]
    rw [if_neg h1, if_neg (not_not_intro h2)]
    simp [h3]
  refine ⟨hmain, ?_⟩
  intro ed hed
  rw [hmain]
  unfold appendSteps
  by_cases hs : rowSteps raw = []
  · rw [if_pos hs, hs, withSteps_nil]
    exact hed
  · rw [if_neg hs, alookup_map_update, hed]
    rfl

/-- Witness for `csv_first_row_wins`: a second row for the same grouping
key contributes its step and nothing else. -/
theorem csv_first_row_wins_witness :
    loadRow FAILED_ISSUE_KEYS [("GCTEST-94808_Sprint1_", sampleRecord)]
        [("Issue Key", "GCTEST-94808"), ("CycleName", "Sprint1"),
         ("Status", "FAIL"), ("Step", "Do X")]
      = appendSteps [("GCTEST-94808_Sprint1_", sampleRecord)]
          (rowUniqueKey
            [("Issue Key", "GCTEST-94808"), ("CycleName", "Sprint1"),
             ("Status", "FAIL"), ("Step", "Do X")]
            (rowIssueKey
              [("Issue Key", "GCTEST-94808"), ("CycleName", "Sprint1"),
               ("Status", "FAIL"), ("Step", "Do X")]))
          (rowSteps
            [("Issue Key", "GCTEST-94808"), ("CycleName", "Sprint1"),
             ("Status", "FAIL"), ("Step", "Do X")]) :=
  (csv_first_row_wins FAILED_ISSUE_KEYS [("GCTEST-94808_Sprint1_", sampleRecord)]
    [("Issue Key", "GCTEST-94808"), ("CycleName", "Sprint1"),
     ("Status", "FAIL"), ("Step", "Do X")]
    (by decide) (by decide) (by decide)).1

end Zephyr

namespace Zephyr

/-- Looking up a freshly assigned key returns the assigned value. -/
theorem alookup_ainsert {κ ν : Type} [DecidableEq κ] (l : AList κ ν) (k : κ) (v : ν) :
    alookup (ainsert l k v) k = some v := by
  simp [ainsert, alookup]

/-- After any cycle-resolver call, the returned cache binds the
(normalised) cycle key to the returned value. -/
theorem cycle_call_caches (env : Env) (pid vid : Int) (name : String)
    (cache : AList (String × Int) (Option String)) :
    alookup (get_or_create_cycle_id env pid vid name cache).2.1
        ((if name = "" then "Ad hoc" else name), vid)
      = some (get_or_create_cycle_id env pid vid name cache).1 := by
  unfold get_or_create_cycle_id
  cases hm : alookup cache ((if name = "" then "Ad hoc" else name), vid) with
  | some v => simp [hm]
  | none =>
    cases hc : env.postCycle (if name = "" then "Ad hoc" else name) pid vid with
    | none => simp [hm, hc, alookup_ainsert]
    | some r =>
      by_cases hst : r.status_code = 200 ∨ r.status_code = 201 <;>
        simp [hm, hc, hst, alookup_ainsert]

/-- After any folder-resolver call with a non-blank folder name, the
returned cache binds the folder key to the returned value. -/
theorem folder_call_caches (env : Env) (pid vid : Int) (cid name : String)
    (cache : AList (String × Int × Int × String) (Option String))
    (fcache : AList (Int × Int × String) (List FolderObj))
    (hstrip : pyStrip name ≠ "") :
    alookup (get_or_create_folder_id env pid vid cid name cache fcache).2.1
        (name, pid, vid, cid)
      = some (get_or_create_folder_id env pid vid cid name cache fcache).1 := by
  unfold get_or_create_folder_id
  rw [if_neg hstrip]
  cases hm : alookup cache (name, pid, vid, cid) with
  | some v => simp [hm]
  | none =>
    simp only [hm]
    repeat' split
    all_goals simp [alookup_ainsert]

/-- A successful component-resolver call leaves the returned map binding
the stripped name to the returned identifier. -/
theorem component_call_caches (env : Env) (pk : String)
    (cmap : AList String String) (name cid : String)
    (h : (get_or_create_component_id env pk cmap name).1 = some cid) :
    alookup (get_or_create_component_id env pk cmap name).2.1 (pyStrip name)
      = some cid := by
  unfold get_or_create_component_id at h ⊢
  by_cases hstrip : pyStrip name = ""
  · rw [if_pos hstrip] at h
    exact absurd h (by simp)
  · rw [if_neg hstrip] at h ⊢
    cases hm : alookup cmap (pyStrip name) with
    | some c0 =>
      simp only [hm] at h ⊢
      simpa [hm] using h
    | none =>
      simp only [hm] at h ⊢
      cases hc : env.postComponent pk (pyStrip name) with
      | none => simp [hc] at h
      | some r =>
        by_cases hst : r.status_code = 200 ∨ r.status_code = 201
        · cases hb : r.body with
          | none => simp [hc, hst, hb] at h
          | some c0 =>
            simp only [hc, hst, hb, if_true, if_pos hst] at h ⊢
            simp only [Option.some.injEq] at h
            simp [← h, alookup_ainsert]
        · simp [hc, hst] at h

/-- A version-resolver call that returns a non-sentinel identifier leaves
the returned map binding the stripped name to it, and the sentinel guard
was false. -/
theorem version_call_caches (env : Env) (pid : Int)
    (vmap : AList String Int) (name : String)
    (h : (get_or_create_version_id env pid vmap name).1 ≠ -1) :
    ¬ (pyStrip name = "" ∨ pyLower name = "unscheduled") ∧
    alookup (get_or_create_version_id env pid vmap name).2.1 (pyStrip name)
      = some (get_or_create_version_id env pid vmap name).1 := by
  unfold get_or_create_version_id at h ⊢
  by_cases hsent : pyStrip name = "" ∨ pyLower name = "unscheduled"
  · rw [if_pos hsent] at h
    exact absurd rfl h
  · rw [if_neg hsent] at h ⊢
    refine ⟨hsent, ?_⟩
    cases hm : alookup vmap (pyStrip name) with
    | some v0 => simp [hm]
    | none =>
      simp only [hm] at h ⊢
      cases hc : env.postVersion (pyStrip name) pid with
      | none => simp [hc] at h
      | some r =>
        by_cases hst : r.status_code = 200 ∨ r.status_code = 201
        · cases hb : r.body with
          | none => simp [hc, hst, hb] at h
          | some v0 => simp [hc, hst, hb, alookup_ainsert]
        · simp [hc, hst] at h

end Zephyr

namespace Zephyr

/-- C5: every get-or-create resolver yields an absent identifier when its
creation call fails (no response or a non-2xx status), with no exception
escaping: the version resolver yields the sentinel `-1`, the component,
cycle and folder resolvers yield `none`; and a blank or (case-insensitive)
`unscheduled` version name maps to the sentinel `-1` with no API call and
an unchanged map. -/
theorem resolvers_absent_on_creation_failure :
    (∀ (env : Env) (pid : Int) (vmap : AList String Int) (name : String),
        pyStrip name = "" ∨ pyLower name = "unscheduled" →
        get_or_create_version_id env pid vmap name = (-1, vmap, [])) ∧
    (∀ (env : Env) (pid : Int) (vmap : AList String Int) (name : String),
        alookup vmap (pyStrip name) = none →
        (∀ r, env.postVersion (pyStrip name) pid = some r →
          ¬ (r.status_code = 200 ∨ r.status_code = 201)) →
        (get_or_create_version_id env pid vmap name).1 = -1) ∧
    (∀ (env : Env) (pk : String) (cmap : AList String String) (name : String),
        alookup cmap (pyStrip name) = none →
        (∀ r, env.postComponent pk (pyStrip name) = some r →
          ¬ (r.status_code = 200 ∨ r.status_code = 201)) →
        (get_or_create_component_id env pk cmap name).1 = none) ∧
    (∀ (env : Env) (pid vid : Int) (name : String)
        (cache : AList (String × Int) (Option String)),
        alookup cache ((if name = "" then "Ad hoc" else name), vid) = none →
        (∀ r, env.postCycle (if name = "" then "Ad hoc" else name) pid vid = some r →
          ¬ (r.status_code = 200 ∨ r.status_code = 201)) →
        (get_or_create_cycle_id env pid vid name cache).1 = none) ∧
    (∀ (env : Env) (pid vid : Int) (cid name : String)
        (cache : AList (String × Int × Int × String) (Option String))
        (fcache : AList (Int × Int × String) (List FolderObj)),
        alookup cache (name, pid, vid, cid) = none →
        alookup fcache (pid, vid, cid) = none →
        env.getFolders pid vid cid = none →
        (∀ r, env.postFolder name pid vid cid = some r →
          ¬ (r.status_code = 200 ∨ r.status_code = 201)) →
        (get_or_create_folder_id env pid vid cid name cache fcache).1 = none) := by
  refine ⟨?_, ?_, ?_, ?_, ?_⟩
  · intro env pid vmap name h
    unfold get_or_create_version_id
    rw [if_pos h]
  · intro env pid vmap name hm hfail
    unfold get_or_create_version_id
    by_cases hsent : pyStrip name = "" ∨ pyLower name = "unscheduled"
    · rw [if_pos hsent]
    · rw [if_neg hsent]
      cases hc : env.postVersion (pyStrip name) pid with
      | none => simp [hm, hc]
      | some r =>
        cases hb : r.body with
        | none => simp [hm, hc, hfail r hc, hb]
        | some v0 => simp [hm, hc, hfail r hc, hb]
  · intro env pk cmap name hm hfail
    unfold get_or_create_component_id
    by_cases hstrip : pyStrip name = ""
    · rw [if_pos hstrip]
    · rw [if_neg hstrip]
      cases hc : env.postComponent pk (pyStrip name) with
      | none => simp [hm, hc]
      | some r =>
        cases hb : r.body with
        | none => simp [hm, hc, hfail r hc, hb]
        | some c0 => simp [hm, hc, hfail r hc, hb]
  · intro env pid vid name cache hm hfail
    unfold get_or_create_cycle_id
    cases hc : env.postCycle (if name = "" then "Ad hoc" else name) pid vid with
    | none => simp [hm, hc]
    | some r => simp [hm, hc, hfail r hc]
  · intro env pid vid cid name cache fcache hm hfc hgf hfail
    unfold get_or_create_folder_id
    by_cases hstrip : pyStrip name = ""
    · rw [if_pos hstrip]
    · rw [if_neg hstrip]
      cases hc : env.postFolder name pid vid cid with
      | none => simp [hm, hfc, hgf, hc, alookup_ainsert, optTruthy]
      | some r => simp [hm, hfc, hgf, hc, hfail r hc, alookup_ainsert, optTruthy]

/-- Witness for `resolvers_absent_on_creation_failure` in a world where
every request fails. -/
theorem resolvers_absent_on_creation_failure_witness :
    get_or_create_version_id envDown 10000 [] "Unscheduled" = (-1, [], []) ∧
    (get_or_create_version_id envDown 10000 [] "2.0").1 = -1 ∧
    (get_or_create_component_id envDown "GCTEST" [] "UI").1 = none ∧
    (get_or_create_cycle_id envDown 10000 (-1) "Sprint1" []).1 = none ∧
    (get_or_create_folder_id envDown 10000 (-1) "77" "Regression" [] []).1 = none := by
  refine ⟨resolvers_absent_on_creation_failure.1 envDown 10000 [] "Unscheduled"
      (Or.inr (by decide)),
    resolvers_absent_on_creation_failure.2.1 envDown 10000 [] "2.0" rfl
      (fun r hr => by simp [envDown] at hr),
    resolvers_absent_on_creation_failure.2.2.1 envDown "GCTEST" [] "UI" rfl
      (fun r hr => by simp [envDown] at hr),
    resolvers_absent_on_creation_failure.2.2.2.1 envDown 10000 (-1) "Sprint1" [] rfl
      (fun r hr => by simp [envDown] at hr),
    resolvers_absent_on_creation_failure.2.2.2.2 envDown 10000 (-1) "77" "Regression" [] []
      rfl rfl rfl (fun r hr => by simp [envDown] at hr)⟩

/-- C6: after a first resolver call that produced an identifier (for the
cycle and folder resolvers, after any first call), a second call with the
same name and scope returns the same value and the same caches and
performs no API call at all. -/
theorem resolvers_cached_on_second_call :
    (∀ (env : Env) (pk : String) (cmap : AList String String) (name cid : String)
        (cmap' : AList String String) (calls : List ApiCall),
        get_or_create_component_id env pk cmap name = (some cid, cmap', calls) →
        get_or_create_component_id env pk cmap' name = (some cid, cmap', [])) ∧
    (∀ (env : Env) (pid : Int) (vmap : AList String Int) (name : String) (vid : Int)
        (vmap' : AList String Int) (calls : List ApiCall),
        get_or_create_version_id env pid vmap name = (vid, vmap', calls) → vid ≠ -1 →
        get_or_create_version_id env pid vmap' name = (vid, vmap', [])) ∧
    (∀ (env : Env) (pid vid : Int) (name : String)
        (cache : AList (String × Int) (Option String)) (v : Option String)
        (cache' : AList (String × Int) (Option String)) (calls : List ApiCall),
        get_or_create_cycle_id env pid vid name cache = (v, cache', calls) →
        get_or_create_cycle_id env pid vid name cache' = (v, cache', [])) ∧
    (∀ (env : Env) (pid vid : Int) (cid name : String)
        (cache : AList (String × Int × Int × String) (Option String))
        (fcache : AList (Int × Int × String) (List FolderObj)) (v : Option String)
        (cache' : AList (String × Int × Int × String) (Option String))
        (fcache' : AList (Int × Int × String) (List FolderObj)) (calls : List ApiCall),
        get_or_create_folder_id env pid vid cid name cache fcache
          = (v, cache', fcache', calls) →
        get_or_create_folder_id env pid vid cid name cache' fcache'
          = (v, cache', fcache', [])) := by
  refine ⟨?_, ?_, ?_, ?_⟩
  · intro env pk cmap name cid cmap' calls h
    have h1 : (get_or_create_component_id env pk cmap name).1 = some cid := by rw [h]
    have hhit := component_call_caches env pk cmap name cid h1
    rw [h] at hhit
    have hstrip : pyStrip name ≠ "" := by
      intro hs
      unfold get_or_create_component_id at h1
      rw [if_pos hs] at h1
      simp at h1
    unfold get_or_create_component_id
    rw [if_neg hstrip]
    simp [hhit]
  · intro env pid vmap name vid vmap' calls h hvid
    have h1 : (get_or_create_version_id env pid vmap name).1 ≠ -1 := by rw [h]; exact hvid
    obtain ⟨hsent, hhit⟩ := version_call_caches env pid vmap name h1
    rw [h] at hhit
    unfold get_or_create_version_id
    rw [if_neg hsent]
    simp [hhit]
  · intro env pid vid name cache v cache' calls h
    have hhit := cycle_call_caches env pid vid name cache
    rw [h] at hhit
    unfold get_or_create_cycle_id
    simp [hhit]
  · intro env pid vid cid name cache fcache v cache' fcache' calls h
    by_cases hstrip : pyStrip name = ""
    · unfold get_or_create_folder_id at h ⊢
      rw [if_pos hstrip] at h ⊢
      simp only [Prod.mk.injEq] at h
      obtain ⟨hv, hc, hf, -⟩ := h
      subst hv hc hf
      rfl
    · have hhit := folder_call_caches env pid vid cid name cache fcache hstrip
      rw [h] at hhit
      unfold get_or_create_folder_id
      rw [if_neg hstrip]
      simp [hhit]

/-- Witness for `resolvers_cached_on_second_call`: each resolver is called
twice in a world where creation succeeds. -/
theorem resolvers_cached_on_second_call_witness :
    get_or_create_component_id envHappy "GCTEST" [("UI", "10200")] "UI"
      = (some "10200", [("UI", "10200")], []) ∧
    get_or_create_version_id envHappy 10000 [("2.0", 31)] "2.0"
      = (31, [("2.0", 31)], []) ∧
    get_or_create_cycle_id envHappy 10000 (-1) "Sprint1" [(("Sprint1", -1), some "77")]
      = (some "77", [(("Sprint1", -1), some "77")], []) ∧
    get_or_create_folder_id envHappy 10000 (-1) "77" "Regression"
        [(("Regression", 10000, -1, "77"), some "900")]
        [((10000, -1, "77"), [⟨"Folder", some "900", none⟩])]
      = (some "900", [(("Regression", 10000, -1, "77"), some "900")],
         [((10000, -1, "77"), [⟨"Folder", some "900", none⟩])], []) := by
  refine ⟨resolvers_cached_on_second_call.1 envHappy "GCTEST" [] "UI" "10200"
      [("UI", "10200")] [ApiCall.postComponent "UI"] rfl,
    resolvers_cached_on_second_call.2.1 envHappy 10000 [] "2.0" 31 [("2.0", 31)]
      [ApiCall.postVersion "2.0"] rfl (by decide),
    resolvers_cached_on_second_call.2.2.1 envHappy 10000 (-1) "Sprint1" [] (some "77")
      [(("Sprint1", -1), some "77")] [ApiCall.postCycle "Sprint1" (-1)] rfl,
    resolvers_cached_on_second_call.2.2.2 envHappy 10000 (-1) "77" "Regression" [] []
      (some "900") [(("Regression", 10000, -1, "77"), some "900")]
      [((10000, -1, "77"), [⟨"Folder", some "900", none⟩])]
      [ApiCall.getFolders 10000 (-1) "77", ApiCall.postFolder "Regression" (-1) "77"]
      rfl⟩

/-- C10: a failed cycle creation is itself cached: the failing call stores
`None` under the `(cycle name, version id)` key, and any later call whose
cache holds `None` for that key returns the absent identifier immediately
with no API call. -/
theorem cycle_failure_cached (env : Env) (pid vid : Int) (name : String)
    (cache : AList (String × Int) (Option String))
    (hm : alookup cache ((if name = "" then "Ad hoc" else name), vid) = none)
    (hfail : ∀ r, env.postCycle (if name = "" then "Ad hoc" else name) pid vid = some r →
      ¬ (r.status_code = 200 ∨ r.status_code = 201)) :
    get_or_create_cycle_id env pid vid name cache
      = (none, ainsert cache ((if name = "" then "Ad hoc" else name), vid) none,
         [ApiCall.postCycle (if name = "" then "Ad hoc" else name) vid]) ∧
    ∀ cache₂, alookup cache₂ ((if name = "" then "Ad hoc" else name), vid) = some none →
      get_or_create_cycle_id env pid vid name cache₂ = (none, cache₂, []) := by
  constructor
  · unfold get_or_create_cycle_id
    cases hc : env.postCycle (if name = "" then "Ad hoc" else name) pid vid with
    | none => simp [hm, hc]
    | some r => simp [hm, hc, hfail r hc]
  · intro cache₂ hhit
    unfold get_or_create_cycle_id
    simp [hhit]

/-- Witness for `cycle_failure_cached` in a world where every request
fails: strike one caches the failure, and the cached failure answers the
next call with no API call. -/
theorem cycle_failure_cached_witness :
    get_or_create_cycle_id envDown 10000 (-1) "Sprint1" []
      = (none, ainsert [] ((if "Sprint1" = "" then "Ad hoc" else "Sprint1"), -1) none,
         [ApiCall.postCycle (if "Sprint1" = "" then "Ad hoc" else "Sprint1") (-1)]) ∧
    get_or_create_cycle_id envDown 10000 (-1) "Sprint1"
        (ainsert [] ((if "Sprint1" = "" then "Ad hoc" else "Sprint1"), -1) none)
      = (none, ainsert [] ((if "Sprint1" = "" then "Ad hoc" else "Sprint1"), -1) none, []) := by
  have h := cycle_failure_cached envDown 10000 (-1) "Sprint1" [] rfl
    (fun r hr => by simp [envDown] at hr)
  exact ⟨h.1, h.2 (ainsert [] ((if "Sprint1" = "" then "Ad hoc" else "Sprint1"), -1) none)
    (by decide)⟩

end Zephyr

namespace Zephyr

/-- A trace of calls that are all `preCall` contains neither the rate-limit
sleep nor a status-setting `PUT`. -/
theorem precall_no_sleep_put {L : List ApiCall} (h : ∀ c ∈ L, preCall c = true) :
    ApiCall.rateLimitSleep ∉ L ∧ ∀ e b, ApiCall.putExecution e b ∉ L := by
  constructor
  · intro hc
    have := h _ hc
    simp [preCall] at this
  · intro e b hc
    have := h _ hc
    simp [preCall] at this

/-- The issue lookup performs only `getIssue` calls. -/
theorem precall_get_issue_id (env : Env) (k : String) (cache : AList String (Option String)) :
    ∀ c ∈ (get_issue_id env k cache).2.2, preCall c = true := by
  intro c hc
  unfold get_issue_id at hc
  repeat' split at hc
  all_goals simp_all [preCall]

/-- The component resolver performs only `postComponent` calls. -/
theorem precall_get_or_create_component_id (env : Env) (pk : String)
    (cmap : AList String String) (name : String) :
    ∀ c ∈ (get_or_create_component_id env pk cmap name).2.2, preCall c = true := by
  intro c hc
  unfold get_or_create_component_id at hc
  by_cases hstrip : pyStrip name = ""
  · simp [hstrip] at hc
  · rw [if_neg hstrip] at hc
    cases hm : alookup cmap (pyStrip name) with
    | some cid => simp [hm] at hc
    | none =>
      simp only [hm] at hc
      cases hcc : env.postComponent pk (pyStrip name) with
      | none =>
        simp [hcc] at hc
        simp [hc, preCall]
      | some r =>
        by_cases hst : r.status_code = 200 ∨ r.status_code = 201
        · cases hb : r.body with
          | none =>
            simp [hcc, hst, hb] at hc
            simp [hc, preCall]
          | some cid =>
            simp [hcc, hst, hb] at hc
            simp [hc, preCall]
        · simp [hcc, hst] at hc
          simp [hc, preCall]

/-- The issue-component update performs only `putIssueComponents` calls. -/
theorem precall_update_issue_component (env : Env) (ik cid : String) :
    ∀ c ∈ (update_issue_component env ik cid).2, preCall c = true := by
  intro c hc
  unfold update_issue_component at hc
  repeat' split at hc
  all_goals simp_all [preCall]

/-- The component block of the loop body stays within `preCall`s. -/
theorem precall_stepComponent (env : Env) (pk : String) (cmap : AList String String)
    (ed : ExecData) : ∀ c ∈ (stepComponent env pk cmap ed).2, preCall c = true := by
  intro c hc
  simp only [stepComponent] at hc
  split at hc
  · split at hc
    · rcases List.mem_append.mp hc with h | h
      · exact precall_get_or_create_component_id env pk cmap ed.component_name c h
      · exact precall_update_issue_component env ed.issue_key _ c h
    · exact precall_get_or_create_component_id env pk cmap ed.component_name c hc
  · simp at hc

/-- The step synchronisation performs only teststep calls. -/
theorem precall_sync_steps_for_issue (env : Env) (pid : Int) (iid : String)
    (steps : List StepRow) :
    ∀ c ∈ sync_steps_for_issue env pid iid steps, preCall c = true := by
  intro c hc
  unfold sync_steps_for_issue at hc
  by_cases hs : steps = []
  · simp [hs] at hc
  · rw [if_neg hs] at hc
    by_cases he : (get_existing_test_steps env pid iid).1 ≠ []
    · rw [if_pos he] at hc
      unfold get_existing_test_steps at hc
      simp at hc
      subst hc
      rfl
    · rw [if_neg he] at hc
      rcases List.mem_append.mp hc with h | h
      · unfold get_existing_test_steps at h
        simp at h
        subst h
        rfl
      · rcases List.mem_flatMap.mp h with ⟨i, hi, hci⟩
        rcases hmi : steps[i]? with _ | s
        · rw [hmi] at hci
          simp at hci
        · rw [hmi] at hci
          unfold create_test_step at hci
          simp at hci
          subst hci
          rfl

/-- The once-per-issue step block stays within `preCall`s. -/
theorem precall_stepSync (env : Env) (pid : Int) (sc : List String) (ed : ExecData)
    (iid : String) : ∀ c ∈ (stepSync env pid sc ed iid).2, preCall c = true := by
  intro c hc
  unfold stepSync at hc
  split at hc
  · exact precall_sync_steps_for_issue env pid iid ed.steps c hc
  · simp at hc

/-- The version resolver performs only `postVersion` calls. -/
theorem precall_get_or_create_version_id (env : Env) (pid : Int)
    (vmap : AList String Int) (name : String) :
    ∀ c ∈ (get_or_create_version_id env pid vmap name).2.2, preCall c = true := by
  intro c hc
  unfold get_or_create_version_id at hc
  by_cases hsent : pyStrip name = "" ∨ pyLower name = "unscheduled"
  · simp [hsent] at hc
  · rw [if_neg hsent] at hc
    cases hm : alookup vmap (pyStrip name) with
    | some vid => simp [hm] at hc
    | none =>
      simp only [hm] at hc
      cases hcc : env.postVersion (pyStrip name) pid with
      | none =>
        simp [hcc] at hc
        simp [hc, preCall]
      | some r =>
        by_cases hst : r.status_code = 200 ∨ r.status_code = 201
        · cases hb : r.body with
          | none =>
            simp [hcc, hst, hb] at hc
            simp [hc, preCall]
          | some v0 =>
            simp [hcc, hst, hb] at hc
            simp [hc, preCall]
        · simp [hcc, hst] at hc
          simp [hc, preCall]

/-- The cycle resolver performs only `postCycle` calls. -/
theorem precall_get_or_create_cycle_id (env : Env) (pid vid : Int) (name : String)
    (cache : AList (String × Int) (Option String)) :
    ∀ c ∈ (get_or_create_cycle_id env pid vid name cache).2.2, preCall c = true := by
  intro c hc
  unfold get_or_create_cycle_id at hc
  cases hm : alookup cache ((if name = "" then "Ad hoc" else name), vid) with
  | some v => simp [hm] at hc
  | none =>
    simp only [hm] at hc
    cases hcc : env.postCycle (if name = "" then "Ad hoc" else name) pid vid with
    | none =>
      simp [hcc] at hc
      simp [hc, preCall]
    | some r =>
      by_cases hst : r.status_code = 200 ∨ r.status_code = 201 <;>
        · simp [hcc, hst] at hc
          simp [hc, preCall]

/-- The folder resolver performs only folder listing/creation calls. -/
theorem precall_get_or_create_folder_id (env : Env) (pid vid : Int) (cid name : String)
    (cache : AList (String × Int × Int × String) (Option String))
    (fcache : AList (Int × Int × String) (List FolderObj)) :
    ∀ c ∈ (get_or_create_folder_id env pid vid cid name cache fcache).2.2.2,
      preCall c = true := by
  intro c hc
  unfold get_or_create_folder_id at hc
  by_cases hstrip : pyStrip name = ""
  · simp [hstrip] at hc
  · rw [if_neg hstrip] at hc
    cases hm : alookup cache (name, pid, vid, cid) with
    | some v => simp [hm] at hc
    | none =>
      simp only [hm] at hc
      cases hfc : alookup fcache (pid, vid, cid) with
      | some l =>
        simp only [hfc] at hc
        repeat' split at hc
        all_goals try simp only [List.mem_append, List.mem_cons, List.not_mem_nil,
          or_false, false_or] at hc
        all_goals try (rcases hc with hc | hc)
        all_goals simp_all [preCall]
      | none =>
        simp only [hfc] at hc
        repeat' split at hc
        all_goals try simp only [List.mem_append, List.mem_cons, List.not_mem_nil,
          or_false, false_or] at hc
        all_goals try (rcases hc with hc | hc)
        all_goals try subst hc
        all_goals simp_all [preCall]

/-- The folder block of the loop body stays within `preCall`s. -/
theorem precall_stepFolder (env : Env) (pid vid : Int) (cid : String)
    (cache : AList (String × Int × Int × String) (Option String))
    (fcache : AList (Int × Int × String) (List FolderObj)) (ed : ExecData) :
    ∀ c ∈ (stepFolder env pid vid cid cache fcache ed).2.2.2, preCall c = true := by
  intro c hc
  unfold stepFolder at hc
  split at hc
  · exact precall_get_or_create_folder_id env pid vid cid ed.folder_name cache fcache c hc
  · simp at hc

/-- Execution creation performs only the `postExecution` call. -/
theorem precall_create_execution (env : Env) (pid vid : Int) (cid : String)
    (fid : Option String) (iid : String) :
    ∀ c ∈ (create_execution env pid vid cid fid iid).2, preCall c = true := by
  intro c hc
  unfold create_execution at hc
  simp at hc
  simp [hc, preCall]

/-- The comment helper performs only `postComment` calls. -/
theorem precall_add_execution_comment (env : Env) (eid text : String) :
    ∀ c ∈ (add_execution_comment env eid text).2, preCall c = true := by
  intro c hc
  unfold add_execution_comment at hc
  repeat' split at hc
  all_goals simp_all [preCall]

end Zephyr

namespace Zephyr

/-- `execute_execution` performs exactly one status-setting `PUT`, and its
result is that call's success. -/
theorem execute_execution_spec (env : Env) (e i : String) (p v : Int) (c : String)
    (ed : ExecData) (ub ua : Option String) :
    ∃ b, (execute_execution env e i p v c ed ub ua).2 = [ApiCall.putExecution e b] ∧
      (execute_execution env e i p v c ed ub ua).1
        = statusIn (env.putExecution e b) [200, 204] :=
  ⟨_, rfl, rfl⟩

/-- The issue lookup's calls are all `getIssue` calls. -/
theorem get_issue_id_calls (env : Env) (k : String) (cache : AList String (Option String)) :
    ∀ c ∈ (get_issue_id env k cache).2.2, ∃ k', c = ApiCall.getIssue k' := by
  intro c hc
  unfold get_issue_id at hc
  repeat' split at hc
  all_goals simp_all

/-- Shape of the loop-body tail: either execution creation failed and only
`preCall`s were performed, or exactly one status-setting `PUT` happened,
followed (on its failure) by the compensating delete, and closed by the
rate-limit sleep. -/
theorem processTail_shape (env : Env) (pid : Int) (stP : LoopState) (ed : ExecData)
    (iid : String) (vid : Int) (cid : String) (ub ua fid : Option String) :
    (∀ c ∈ (processTail env pid stP ed iid vid cid ub ua fid).2, preCall c = true) ∨
    ∃ (nid : String) (body : ExecPutBody) (mid : List ApiCall),
      (∀ c ∈ mid, preCall c = true) ∧
      (processTail env pid stP ed iid vid cid ub ua fid).2
        = (create_execution env pid vid cid fid iid).2
            ++ ApiCall.putExecution nid body :: (mid ++ [ApiCall.rateLimitSleep]) ∧
      ((statusIn (env.putExecution nid body) [200, 204] = true ∧
          (processTail env pid stP ed iid vid cid ub ua fid).1
            = { stP with created := stP.created + 1 }) ∨
       (statusIn (env.putExecution nid body) [200, 204] = false ∧
          ApiCall.deleteExecution nid ∈ mid ∧
          (processTail env pid stP ed iid vid cid ub ua fid).1
            = recordFail stP ed "Could not execute execution (deleted)" (some nid))) := by
  obtain ⟨body, hcalls, hstat⟩ := execute_execution_spec env
    ((create_execution env pid vid cid fid iid).1.getD "") iid pid vid cid ed ub ua
  simp only [processTail]
  by_cases hcr : optTruthy (create_execution env pid vid cid fid iid).1 = true
  · rw [if_neg (not_not_intro hcr)]
    rw [hstat, hcalls]
    by_cases hex : statusIn
        (env.putExecution ((create_execution env pid vid cid fid iid).1.getD "") body)
        [200, 204] = true
    · right
      rw [if_pos hex]
      refine ⟨_, body,
        (if ed.comment ≠ "" then
          (add_execution_comment env
            ((create_execution env pid vid cid fid iid).1.getD "") ed.comment).2
         else []), ?_, ?_, Or.inl ⟨hex, rfl⟩⟩
      · intro c hc
        split at hc
        · exact precall_add_execution_comment env _ _ c hc
        · simp at hc
      · simp
    · right
      rw [if_neg hex]
      refine ⟨_, body,
        (delete_execution env ((create_execution env pid vid cid fid iid).1.getD "") iid).2,
        ?_, ?_, Or.inr ⟨by simpa using hex, ?_, rfl⟩⟩
      · intro c hc
        unfold delete_execution at hc
        simp at hc
        simp [hc, preCall]
      · simp
      · unfold delete_execution
        simp
  · left
    rw [if_pos hcr]
    exact precall_create_execution env pid vid cid fid iid

/-- Shape of the whole loop body: either the record failed before the
execution stage and only `preCall`s were performed, or the body is the
pre-stage calls followed by the tail, with the pre-stage state carrying the
counters and failure items unchanged. -/
theorem processRecord_shape (env : Env) (pk : String) (pid : Int)
    (um : AList String String) (st : LoopState) (ed : ExecData) :
    (∀ c ∈ (processRecord env pk pid um st ed).2, preCall c = true) ∨
    ∃ (stPre : LoopState) (pre : List ApiCall) (iid : String) (vid : Int)
      (cid : String) (ubid uaid fidv : Option String),
      (∀ c ∈ pre, preCall c = true) ∧
      processRecord env pk pid um st ed
        = ((processTail env pid stPre ed iid vid cid ubid uaid fidv).1,
           pre ++ (processTail env pid stPre ed iid vid cid ubid uaid fidv).2) ∧
      stPre.failed = st.failed ∧ stPre.created = st.created ∧
      stPre.failed_items = st.failed_items := by
  simp only [processRecord]
  split
  · left
    intro c hc
    simp only at hc
    exact precall_get_issue_id env ed.issue_key st.issue_id_cache c hc
  · split
    · left
      intro c hc
      simp only [List.mem_append] at hc
      rcases hc with (((h | h) | h) | h) | h
      · exact precall_get_issue_id env ed.issue_key st.issue_id_cache c h
      · exact precall_stepComponent env pk _ ed c h
      · exact precall_stepSync env pid _ ed _ c h
      · exact precall_get_or_create_version_id env pid _ ed.version_name c h
      · exact precall_get_or_create_cycle_id env pid _ ed.cycle_name _ c h
    · right
      refine ⟨_, _, _, _, _, _, _, _, ?_, rfl, by simp, by simp, by simp⟩
      intro c hc
      simp only [List.mem_append] at hc
      rcases hc with ((((h | h) | h) | h) | h) | h
      · exact precall_get_issue_id env ed.issue_key st.issue_id_cache c h
      · exact precall_stepComponent env pk _ ed c h
      · exact precall_stepSync env pid _ ed _ c h
      · exact precall_get_or_create_version_id env pid _ ed.version_name c h
      · exact precall_get_or_create_cycle_id env pid _ ed.cycle_name _ c h
      · exact precall_stepFolder env pid _ _ _ _ ed c h

end Zephyr

namespace Zephyr

/-- C2: a record whose issue lookup yields an absent id is failed with the
"Issue not found" reason, its only calls are issue lookups (no component
update, no step sync, no execution creation), and the loop continues with
the next record. -/
theorem issue_lookup_failure_short_circuits (env : Env) (pk : String) (pid : Int)
    (um : AList String String) (st : LoopState) (ed : ExecData) (rest : List ExecData)
    (h : (get_issue_id env ed.issue_key st.issue_id_cache).1 = none) :
    processRecord env pk pid um st ed
      = ({ st with
            issue_id_cache := (get_issue_id env ed.issue_key st.issue_id_cache).2.1
            failed := st.failed + 1
            failed_items := st.failed_items ++ [⟨ed, "Issue not found", none⟩] },
         (get_issue_id env ed.issue_key st.issue_id_cache).2.2) ∧
    (∀ c ∈ (processRecord env pk pid um st ed).2, ∃ k, c = ApiCall.getIssue k) ∧
    migrate_loop env pk pid um st (ed :: rest)
      = ((migrate_loop env pk pid um (processRecord env pk pid um st ed).1 rest).1,
         (processRecord env pk pid um st ed).2
           ++ (migrate_loop env pk pid um (processRecord env pk pid um st ed).1 rest).2) := by
  have hmain : processRecord env pk pid um st ed
      = ({ st with
            issue_id_cache := (get_issue_id env ed.issue_key st.issue_id_cache).2.1
            failed := st.failed + 1
            failed_items := st.failed_items ++ [⟨ed, "Issue not found", none⟩] },
         (get_issue_id env ed.issue_key st.issue_id_cache).2.2) := by
    simp only [processRecord]
    rw [h]
    simp [recordFail, optTruthy]
  refine ⟨hmain, ?_, ?_⟩
  · rw [hmain]
    dsimp only
    exact get_issue_id_calls env ed.issue_key st.issue_id_cache
  · simp [migrate_loop]

/-- Witness for `issue_lookup_failure_short_circuits`: in a world where
every request fails, the scenario record is counted as failed with the
"Issue not found" reason. -/
theorem issue_lookup_failure_short_circuits_witness :
    (processRecord envDown "GCTEST" 10000 [] emptyState sampleRecord).1.failed = 1 ∧
    (processRecord envDown "GCTEST" 10000 [] emptyState sampleRecord).1.failed_items
      = [⟨sampleRecord, "Issue not found", none⟩] := by
  have h := issue_lookup_failure_short_circuits envDown "GCTEST" 10000 [] emptyState
    sampleRecord [] rfl
  rw [h.1]
  exact ⟨rfl, rfl⟩

/-- C4 counterexample: two records whose issue lookups fail are both
processed and counted as failed, yet no rate-limit sleep is performed at
all between or after them. -/
theorem sleep_skipped_on_early_failure :
    (migrate_loop envDown "GCTEST" 10000 [] emptyState [sampleRecord, sampleRecord]).1.failed
      = 2 ∧
    ApiCall.rateLimitSleep
      ∉ (migrate_loop envDown "GCTEST" 10000 [] emptyState [sampleRecord, sampleRecord]).2 := by
  exact ⟨by decide, by decide⟩

/-- C4 (amended): the fixed rate-limit delay is performed after a record
exactly when an execution was created for it — that is, exactly when the
status-setting `PUT` was attempted, whatever its outcome.  Records that
fail at issue lookup, cycle resolution or execution creation proceed to the
next record without the delay. -/
theorem rate_limit_sleep_iff_put (env : Env) (pk : String) (pid : Int)
    (um : AList String String) (st : LoopState) (ed : ExecData) :
    ApiCall.rateLimitSleep ∈ (processRecord env pk pid um st ed).2
      ↔ ∃ e b, ApiCall.putExecution e b ∈ (processRecord env pk pid um st ed).2 := by
  rcases processRecord_shape env pk pid um st ed with hall |
    ⟨stPre, pre, iid, vid, cid, ub, ua, fid, hpre, heq, -, -, -⟩
  · obtain ⟨hs, hp⟩ := precall_no_sleep_put hall
    exact iff_of_false hs (by rintro ⟨e, b, hb⟩; exact hp e b hb)
  · rcases processTail_shape env pid stPre ed iid vid cid ub ua fid with hall |
      ⟨nid, body, mid, hmid, htr, -⟩
    · have hs : ∀ c ∈ (processRecord env pk pid um st ed).2, preCall c = true := by
        intro c hc
        rw [heq] at hc
        rcases List.mem_append.mp hc with hx | hx
        · exact hpre c hx
        · exact hall c hx
      obtain ⟨hsl, hp⟩ := precall_no_sleep_put hs
      exact iff_of_false hsl (by rintro ⟨e, b, hb⟩; exact hp e b hb)
    · apply iff_of_true
      · rw [heq]
        simp [htr]
      · refine ⟨nid, body, ?_⟩
        rw [heq]
        simp [htr]

/-- C1: whenever the status-setting `PUT` for a just-created execution was
attempted in a world where that call always fails, the record's processing
issues the compensating delete for that execution id, counts the record as
failed (not created), and appends a failure item carrying the reason and
the created execution id. -/
theorem execute_failure_compensates (env : Env) (pk : String) (pid : Int)
    (um : AList String String) (st : LoopState) (ed : ExecData) (e : String)
    (b : ExecPutBody)
    (hput : ∀ eid body, statusIn (env.putExecution eid body) [200, 204] = false)
    (hmem : ApiCall.putExecution e b ∈ (processRecord env pk pid um st ed).2) :
    ApiCall.deleteExecution e ∈ (processRecord env pk pid um st ed).2 ∧
    (processRecord env pk pid um st ed).1.failed = st.failed + 1 ∧
    (processRecord env pk pid um st ed).1.created = st.created ∧
    (processRecord env pk pid um st ed).1.failed_items
      = st.failed_items ++ [⟨ed, "Could not execute execution (deleted)", some e⟩] := by
  rcases processRecord_shape env pk pid um st ed with hall |
    ⟨stPre, pre, iid, vid, cid, ub, ua, fid, hpre, heq, hf, hc2, hfi⟩
  · exact absurd hmem ((precall_no_sleep_put hall).2 e b)
  · rcases processTail_shape env pid stPre ed iid vid cid ub ua fid with hall |
      ⟨nid, body, mid, hmid, htr, hbr⟩
    · have hs : ∀ c ∈ (processRecord env pk pid um st ed).2, preCall c = true := by
        intro c hc
        rw [heq] at hc
        rcases List.mem_append.mp hc with hx | hx
        · exact hpre c hx
        · exact hall c hx
      exact absurd hmem ((precall_no_sleep_put hs).2 e b)
    · rcases hbr with ⟨hst, -⟩ | ⟨-, hdel, hres⟩
      · rw [hput nid body] at hst
        exact absurd hst (by simp)
      · have hmem2 : ApiCall.putExecution e b
            ∈ pre ++ ((create_execution env pid vid cid fid iid).2
              ++ ApiCall.putExecution nid body :: (mid ++ [ApiCall.rateLimitSleep])) := by
          have hx := hmem
          rw [heq] at hx
          rw [htr] at hx
          exact hx
        have hput_eq : e = nid ∧ b = body := by
          rcases List.mem_append.mp hmem2 with hx | hx
          · exact absurd hx ((precall_no_sleep_put hpre).2 e b)
          · rcases List.mem_append.mp hx with hx | hx
            · exact absurd hx
                ((precall_no_sleep_put (precall_create_execution env pid vid cid fid iid)).2 e b)
            · rcases List.mem_cons.mp hx with hx | hx
              · injection hx with h1 h2
                exact ⟨h1, h2⟩
              · rcases List.mem_append.mp hx with hx | hx
                · exact absurd hx ((precall_no_sleep_put hmid).2 e b)
                · simp at hx
        obtain ⟨he, hb⟩ := hput_eq
        subst he hb
        have hstate : (processRecord env pk pid um st ed).1
            = recordFail stPre ed "Could not execute execution (deleted)" (some e) := by
          rw [heq]
          exact hres
        refine ⟨?_, ?_, ?_, ?_⟩
        · rw [heq]
          simp [htr, hdel]
        · rw [hstate]
          simp [recordFail, hf]
        · rw [hstate]
          simp [recordFail, hc2]
        · rw [hstate]
          simp [recordFail, hfi]

/-- Witness for `execute_failure_compensates`: the scenario record in a
world where creation succeeds with id `500` but the status-setting `PUT`
always fails. -/
theorem execute_failure_compensates_witness :
    ApiCall.deleteExecution "500"
      ∈ (processRecord envPutFails "GCTEST" 10000 [] emptyState sampleRecord).2 ∧
    (processRecord envPutFails "GCTEST" 10000 [] emptyState sampleRecord).1.failed
      = emptyState.failed + 1 ∧
    (processRecord envPutFails "GCTEST" 10000 [] emptyState sampleRecord).1.created
      = emptyState.created ∧
    (processRecord envPutFails "GCTEST" 10000 [] emptyState sampleRecord).1.failed_items
      = emptyState.failed_items
          ++ [⟨sampleRecord, "Could not execute execution (deleted)", some "500"⟩] :=
  execute_failure_compensates envPutFails "GCTEST" 10000 [] emptyState sampleRecord
    "500" sampleBody (fun _ _ => rfl) (by decide)

end Zephyr
